import Mathlib

/-!
# Verification of the zero-touch provisioning core

A shallow embedding of the `zero_touch` repository (files
`ztp/ssh_manager.py`, `ztp/orchestrator.py`, `ztp/netbox_client.py`,
`zero_touch_provision.py`) together with proofs settling the frozen
claims about its specification.

Conventions of the embedding:

* Python strings are Lean `String`s; all scanning helpers work on the
  underlying `List Char` so that every definition evaluates inside the
  kernel.
* Python's `re` module is embedded pattern-by-pattern: each concrete
  regular expression used by the code is translated into an explicit
  character-list scanner with the same matching semantics on the inputs
  the program feeds it (line-structured ASCII device output).  The seven
  serial-number regexes of `parse_show_version` are kept abstract as
  functions `String → Option String` (a regex search returning the first
  capture), because the claims about that routine quantify over what the
  patterns capture, not over the patterns' internals.
* Wall-clock time inside the `execute_device_command` read loop advances
  one unit per loop iteration (the loop begins with `time.sleep(1)`), and
  `time.time() - start_time` becomes `clock - lastReset`.
* Exceptions become `Except`/explicit outcome values; each Python
  exception class that the claims mention is a constructor of `ErrKind`.
-/

namespace ZTP

/-! ## Character/string helpers (Python semantics) -/

/-- Python's `\s` / `str.strip` whitespace class for ASCII text:
space, tab, newline, carriage return, vertical tab, form feed. -/
def isPyWs (c : Char) : Bool :=
  c = ' ' || c = '\t' || c = '\n' || c = '\r' || c = '\x0b' || c = '\x0c'

/-- Test whether `pat` is a leading segment of `s` (used to embed anchored
regex literals). -/
def leadsList : List Char → List Char → Bool
  | [], _ => true
  | _ :: _, [] => false
  | a :: as, b :: bs => a = b && leadsList as bs

/-- Test whether `pat` occurs contiguously somewhere in `s` — Python's
`pat in s`. -/
def occursList (pat : List Char) : List Char → Bool
  | [] => pat.isEmpty
  | c :: rest => leadsList pat (c :: rest) || occursList pat rest

/-- Python `pat in s` on strings. -/
def pyIn (pat s : String) : Bool := occursList pat.data s.data

/-- Python `str.lower()` restricted to ASCII, which is all the program compares. -/
def pyLower (s : String) : String := String.mk (s.data.map Char.toLower)

/-- Python `str.strip()`. -/
def pyStrip (s : String) : String :=
  String.mk (((s.data.dropWhile isPyWs).reverse.dropWhile isPyWs).reverse)

/-- Python `<` on strings: lexicographic comparison by code point. -/
def pyStrLtList : List Char → List Char → Bool
  | [], [] => false
  | [], _ :: _ => true
  | _ :: _, [] => false
  | a :: as, b :: bs =>
    if a.toNat < b.toNat then true
    else if b.toNat < a.toNat then false
    else pyStrLtList as bs

/-- Python `s >= t` on strings. -/
def pyStrGe (s t : String) : Bool := ! pyStrLtList s.data t.data

/-- Split on `'\n'` — the line structure `re.MULTILINE` anchors against. -/
def splitLinesAux : List Char → List Char → List String
  | [], acc => [String.mk acc.reverse]
  | c :: rest, acc =>
    if c = '\n' then String.mk acc.reverse :: splitLinesAux rest []
    else splitLinesAux rest (c :: acc)

/-- The lines of a text, Python `s.split('\n')`. -/
def splitLines (s : String) : List String := splitLinesAux s.data []

/-! ## The console read loop — `ConsoleManager.execute_device_command`

`ssh_manager.py` lines 368–474.  After sending the command the code loops:
sleep one second, read a chunk, append it to `output`, then apply in order
the pagination check (`continue`s on a pager marker while the counter is
below 50, sending one space and resetting `start_time`), the confirmation
check (sends one newline at most once per call, resetting `start_time`),
the `expect` check, the `timeout` check (`time.time() - start_time >
timeout`), and the quiescence check (`> wait_time`, resetting `start_time`
and continuing whenever the chunk was non-empty).
-/

/-- Line 420's test: `'--More--' in chunk or '-- More --' in chunk`. -/
def hasPagerMarker (chunk : String) : Bool :=
  pyIn "--More--" chunk || pyIn "-- More --" chunk

/-- Embeds `re.search(r'Destination filename \[.*?\]\?', chunk, re.IGNORECASE)`:
after an occurrence of `destination filename [` (case-folded), a `]?` must
appear before any newline, since `.` does not match `\n` here. -/
def destPromptAfter : List Char → Bool
  | [] => false
  | c :: rest =>
    if c = '\n' then false
    else leadsList "]?".data (c :: rest) || destPromptAfter rest

/-- Scan the lowered chunk for a start of the destination-filename prompt. -/
def destPromptScan : List Char → Bool
  | [] => false
  | c :: rest =>
    (leadsList "destination filename [".data (c :: rest)
      && destPromptAfter ((c :: rest).drop 22))
    || destPromptScan rest

/-- One of the four confirmation-prompt regexes of lines 431–436 matches the
chunk (all searched with `re.IGNORECASE`). -/
def confirmPromptMatch (chunk : String) : Bool :=
  let l := (pyLower chunk).data
  destPromptScan l || occursList "[confirm]".data l
    || occursList "(y/n)".data l || occursList "[yes/no]".data l

/-- Arguments of `execute_device_command` that steer the loop. -/
structure RunParams where
  waitTime : Nat
  timeout : Nat
  handlePagination : Bool
  autoConfirm : Bool
  expect : Option String
deriving Repr, DecidableEq

/-- The loop's mutable state.  `clock` counts seconds since the command was
sent; `lastReset` is the value of `clock` at the most recent
`start_time = time.time()`.  `spacesSent`/`newlinesSent` count the pager
advances and confirmation responses written to the channel; `broke` records
that the `while True` loop has exited. -/
structure LoopState where
  output : String
  paginationCount : Nat
  confirmationSent : Bool
  clock : Nat
  lastReset : Nat
  spacesSent : Nat
  newlinesSent : Nat
  broke : Bool
deriving Repr, DecidableEq

/-- State at the top of the loop (lines 407–411). -/
def initLoop : LoopState :=
  { output := "", paginationCount := 0, confirmationSent := false,
    clock := 0, lastReset := 0, spacesSent := 0, newlinesSent := 0,
    broke := false }

/-- Lines 414–416: `time.sleep(1)`, read the chunk, append it. -/
def tickStep (st : LoopState) (chunk : String) : LoopState :=
  { st with clock := st.clock + 1, output := st.output ++ chunk }

/-- Lines 421–426: send one space, bump the pagination counter, reset the
idle clock, `continue` (nothing else runs for this chunk). -/
def pagerBranch (st : LoopState) : LoopState :=
  { st with spacesSent := st.spacesSent + 1,
            paginationCount := st.paginationCount + 1,
            lastReset := st.clock }

/-- Lines 429–443: when `auto_confirm` is set, no confirmation was sent yet
this call and a prompt pattern matches the chunk, send one newline, set the
flag, reset the idle clock; no `continue` — checking falls through. -/
def confirmBranch (p : RunParams) (st : LoopState) (chunk : String) : LoopState :=
  if p.autoConfirm ∧ st.confirmationSent = false ∧ confirmPromptMatch chunk then
    { st with newlinesSent := st.newlinesSent + 1,
              confirmationSent := true, lastReset := st.clock }
  else st

/-- Lines 445–462: the expect short-circuit, the hard-timeout check
(`time.time() - start_time > timeout`), and the quiescence check
(`> wait_time`; continued activity resets the idle clock instead of
breaking). -/
def finishChecks (p : RunParams) (st : LoopState) (chunk : String) : LoopState :=
  if (match p.expect with | some e => pyIn e st.output | none => false) then
    { st with broke := true }
  else if p.timeout < st.clock - st.lastReset then
    { st with broke := true }
  else if p.expect = none ∧ p.waitTime < st.clock - st.lastReset then
    if chunk ≠ "" then { st with lastReset := st.clock } else { st with broke := true }
  else st

/-- One iteration of the `while True` loop of lines 413–462, fed the chunk
the channel yields this second.  A state with `broke = true` is final. -/
def runStep (p : RunParams) (st : LoopState) (chunk : String) : LoopState :=
  if st.broke then st
  else if p.handlePagination ∧ st.paginationCount < 50 ∧ hasPagerMarker chunk then
    pagerBranch (tickStep st chunk)
  else
    finishChecks p (confirmBranch p (tickStep st chunk) chunk) chunk

/-- Run the loop on a finite prefix of the channel's chunk stream.
`(runChunks p cs).broke = false` means the Python loop is still running
after consuming every chunk of `cs`. -/
def runChunks (p : RunParams) (cs : List String) : LoopState :=
  cs.foldl (runStep p) initLoop

/-! ## The serial extractor — `ConsoleManager.parse_show_version`

`ssh_manager.py` lines 500–544.  The text is first cleaned (pager banner
removal, backspace removal, ANSI escape removal), then an ordered list of
regexes is tried; a captured token is stripped and rejected if it is empty
or a placeholder, in which case the loop falls through to the next pattern.
The regexes themselves are embedded abstractly as `String → Option String`
(the first capture group of `re.search`, or `none` on no match).
-/

/-- Fuel-bounded scan for `removeOccurs` below; every step consumes at
least one input character, so fuel equal to the input length suffices. -/
def removeOccursAux (pat : List Char) : Nat → List Char → List Char
  | 0, l => l
  | _, [] => []
  | fuel + 1, c :: rest =>
    if pat ≠ [] ∧ leadsList pat (c :: rest) then
      removeOccursAux pat fuel ((c :: rest).drop pat.length)
    else
      c :: removeOccursAux pat fuel rest

/-- Delete every occurrence of `pat` from `s` — Python `s.replace(pat, '')`
(left-to-right, non-overlapping). -/
def removeOccurs (pat cs : List Char) : List Char :=
  removeOccursAux pat cs.length cs

/-- After `ESC [`, consume `[0-9;]*` then one ASCII letter; `none` when the
escape-sequence regex `\x1b\[[0-9;]*[a-zA-Z]` cannot complete here. -/
def ansiTail : List Char → Option (List Char)
  | [] => none
  | c :: rest =>
    if c.isDigit || c = ';' then ansiTail rest
    else if ('a' ≤ c ∧ c ≤ 'z') ∨ ('A' ≤ c ∧ c ≤ 'Z') then some rest
    else none

/-- Fuel-bounded scan for `stripAnsi` below; every step consumes at least
one input character (`ansiTail` only ever drops characters), so fuel equal
to the input length suffices. -/
def stripAnsiAux : Nat → List Char → List Char
  | 0, l => l
  | _, [] => []
  | fuel + 1, '\x1b' :: '[' :: rest2 =>
    match ansiTail rest2 with
    | some rest3 => stripAnsiAux fuel rest3
    | none => '\x1b' :: '[' :: stripAnsiAux fuel rest2
  | fuel + 1, c :: rest => c :: stripAnsiAux fuel rest

/-- Embeds `re.sub(r'\x1b\[[0-9;]*[a-zA-Z]', '', s)`: remove every complete ANSI
escape sequence, leaving incomplete ones in place. -/
def stripAnsi (cs : List Char) : List Char :=
  stripAnsiAux cs.length cs

/-- Lines 512–516: strip both pager banner spellings, backspaces
(`re.sub(r'\x08+', '')` deletes exactly the `\x08` characters), and ANSI
escapes. -/
def cleanVersionOutput (output : String) : String :=
  let s1 := removeOccurs "--More--".data output.data
  let s2 := removeOccurs "-- More --".data s1
  let s3 := s2.filter (fun c => c ≠ '\x08')
  String.mk (stripAnsi s3)

/-- Line 537's rejection test on the stripped token: falsy or one of the
placeholder spellings (`serial.lower() in ['none', 'n/a', 'unknown', '']`). -/
def isPlaceholderSerial (serial : String) : Bool :=
  serial = "" || pyLower serial = "none" || pyLower serial = "n/a"
    || pyLower serial = "unknown"

/-- The pattern loop of lines 532–539 over the cleaned text: first pattern
whose stripped capture survives the placeholder filter wins; a rejected
capture falls through to the next pattern; exhaustion returns `none`. -/
def serialPatternLoop : List (String → Option String) → String → Option String
  | [], _ => none
  | p :: ps, s =>
    match p s with
    | some tok =>
      if isPlaceholderSerial (pyStrip tok) then serialPatternLoop ps s
      else some (pyStrip tok)
    | none => serialPatternLoop ps s

/-- Model of `ConsoleManager.parse_show_version`, with the seven regexes abstracted
as capture functions over the cleaned output. -/
def parse_show_version (patterns : List (String → Option String))
    (output : String) : Option String :=
  serialPatternLoop patterns (cleanVersionOutput output)

/-! ## The verification-marker extractor —
`ProvisioningOrchestrator._extract_verification_markers`

`orchestrator.py` lines 609–652.  Four regex passes over the configuration
text.  The embedding works line by line, which coincides with the regexes'
behaviour on the line-structured configuration text the program handles
(a `\s+` in those regexes never usefully crosses a line break there, and
every `description` keyword is followed by its text on the same block). -/

/-- A keyword line `kw <token>`: the line starts with `kw`, then at least one
whitespace character, then a non-empty run of non-whitespace.  Returns the
token and the rest of the line after it (the regexes' `^kw\s+(\S+)`). -/
def keywordLineTok (kw : String) (line : String) : Option (String × String) :=
  let cs := line.data
  if leadsList kw.data cs then
    let rest := cs.drop kw.length
    match rest with
    | [] => none
    | c :: _ =>
      if isPyWs c then
        let afterWs := rest.dropWhile isPyWs
        let tok := afterWs.takeWhile (fun d => ! isPyWs d)
        if tok.isEmpty then none
        else some (String.mk tok, String.mk (afterWs.drop tok.length))
      else none
  else none

/-- A line that begins an `interface` block boundary for the lookahead
`(?=^interface|\Z)`: any line whose text starts with `interface`. -/
def isInterfaceBoundary (line : String) : Bool :=
  leadsList "interface".data line.data

/-- After an occurrence of `description`, the regex fragment
`\s+(.+?)` captures a non-`strip`-empty text exactly when a whitespace
character follows and some non-whitespace character occurs later in the
block. -/
def descCaptureQualifies (cs : List Char) : Bool :=
  match cs with
  | [] => false
  | c :: rest => isPyWs c && rest.any (fun d => ! isPyWs d)

/-- The block body contains `description` followed by whitespace and then
some non-whitespace content — i.e. `re.findall`'s optional group
`(?:description\s+(.+?))?` captured a `strip`-non-empty description. -/
def blockHasDescription : List Char → Bool
  | [] => false
  | c :: rest =>
    (leadsList "description".data (c :: rest)
      && descCaptureQualifies ((c :: rest).drop 11))
    || blockHasDescription rest

/-- Walk the configuration's lines, producing every match of
`^interface\s+(\S+).*?(?:description\s+(.+?))?(?=^interface|\Z)` as a pair
(interface name, block body text).  `cur` holds the match currently being
accumulated. -/
def interfaceBlocksAux : List String → Option (String × List String) →
    List (String × String)
  | [], none => []
  | [], some (n, acc) => [(n, String.intercalate "\n" acc)]
  | line :: rest, cur =>
    if isInterfaceBoundary line then
      let closed := match cur with
        | some (n, acc) => [(n, String.intercalate "\n" acc)]
        | none => []
      match keywordLineTok "interface" line with
      | some (name, tail) => closed ++ interfaceBlocksAux rest (some (name, [tail]))
      | none => closed ++ interfaceBlocksAux rest none
    else
      match cur with
      | some (n, acc) => interfaceBlocksAux rest (some (n, acc ++ [line]))
      | none => interfaceBlocksAux rest none

/-- All `(name, body)` interface-block matches of the config text, in order. -/
def interfaceBlocks (config : String) : List (String × String) :=
  interfaceBlocksAux (splitLines config) none

/-- First match of `^hostname\s+(\S+)` under `re.MULTILINE`. -/
def hostnameTok : List String → Option String
  | [] => none
  | line :: rest =>
    match keywordLineTok "hostname" line with
    | some (tok, _) => some tok
    | none => hostnameTok rest

/-- Match `^vlan\s+(\d+)` against one line: the token after the whitespace must start
with a digit; the capture is its maximal leading digit run. -/
def vlanTokOfLine (line : String) : Option String :=
  match keywordLineTok "vlan" line with
  | some (tok, _) =>
    let ds := tok.data.takeWhile Char.isDigit
    if ds.isEmpty then none else some (String.mk ds)
  | none => none

/-- All captures of `re.findall(r'^vlan\s+(\d+)', config, re.MULTILINE)`. -/
def vlanToks (lines : List String) : List String :=
  lines.filterMap vlanTokOfLine

/-- Parse `\d+\.\d+\.\d+\.\d+` greedily at the head of the input, returning
the matched text and the remainder. -/
def parseQuad (cs : List Char) : Option (List Char × List Char) :=
  let d1 := cs.takeWhile Char.isDigit
  let r1 := cs.dropWhile Char.isDigit
  match d1, r1 with
  | _ :: _, '.' :: r2 =>
    let d2 := r2.takeWhile Char.isDigit
    let r3 := r2.dropWhile Char.isDigit
    match d2, r3 with
    | _ :: _, '.' :: r4 =>
      let d3 := r4.takeWhile Char.isDigit
      let r5 := r4.dropWhile Char.isDigit
      match d3, r5 with
      | _ :: _, '.' :: r6 =>
        let d4 := r6.takeWhile Char.isDigit
        match d4 with
        | [] => none
        | _ :: _ =>
          some (d1 ++ '.' :: d2 ++ '.' :: d3 ++ '.' :: d4, r6.drop d4.length)
      | _, _ => none
    | _, _ => none
  | _, _ => none

/-- Try the full pattern `ip address\s+(quad)\s+(quad)` anchored at the head
of the input; on success return the first captured address and the
remainder after the whole match. -/
def ipMatchHere (cs : List Char) : Option (String × List Char) :=
  if leadsList "ip address".data cs then
    let r1 := cs.drop 10
    let ws1 := r1.takeWhile isPyWs
    if ws1.isEmpty then none
    else
      match parseQuad (r1.dropWhile isPyWs) with
      | some (q1, r2) =>
        let ws2 := r2.takeWhile isPyWs
        if ws2.isEmpty then none
        else
          match parseQuad (r2.dropWhile isPyWs) with
          | some (_, r3) => some (String.mk q1, r3)
          | none => none
      | none => none
  else none

/-- Fuel-bounded scan for `ipCaptures` below.  Each step consumes at least
one character of the input (`ipMatchHere` succeeds only past the ten-byte
literal `ip address`), so fuel equal to the input length never runs out. -/
def ipCapturesAux : Nat → List Char → List String
  | 0, _ => []
  | _, [] => []
  | fuel + 1, c :: rest =>
    match ipMatchHere (c :: rest) with
    | some (a, r) => a :: ipCapturesAux fuel r
    | none => ipCapturesAux fuel rest

/-- Non-overlapping scan of
`re.findall(r'ip address\s+(quad)\s+(quad)', config)`, keeping the first
captured address of each match and resuming after the whole match. -/
def ipCaptures (cs : List Char) : List String :=
  ipCapturesAux cs.length cs

/-- Lines 623–626: the `hostname` marker, when the search finds one. -/
def hostnameMarkersOf (config : String) : List (String × String) :=
  match hostnameTok (splitLines config) with
  | some tok => [("hostname", tok)]
  | none => []

/-- Lines 628–636: walk the first three interface-block matches and keep a
marker for each whose captured description `strip`s to non-empty. -/
def interfaceMarkersOf (config : String) : List (String × String) :=
  ((interfaceBlocks config).take 3).filterMap fun nb =>
    if blockHasDescription nb.2.data then some ("interface", nb.1) else none

/-- Lines 638–641: the first three VLAN ids. -/
def vlanMarkersOf (config : String) : List (String × String) :=
  ((vlanToks (splitLines config)).take 3).map fun v => ("vlan", v)

/-- Lines 643–649: the first two IPv4 addresses. -/
def ipMarkersOf (config : String) : List (String × String) :=
  ((ipCaptures config.data).take 2).map fun a => ("ip_address", a)

/-- Model of `ProvisioningOrchestrator._extract_verification_markers`: hostname,
then the first three interface blocks that captured a non-empty
description, then the first three VLAN ids, then the first two IPv4
addresses.  `none`/empty configuration yields no markers (line 618). -/
def extract_verification_markers (deviceConfig : Option String) :
    List (String × String) :=
  match deviceConfig with
  | none => []
  | some config =>
    if config = "" then []
    else
      hostnameMarkersOf config ++ interfaceMarkersOf config
        ++ vlanMarkersOf config ++ ipMarkersOf config

/-! ## Connection retry — `SSHManager.connect` and `ConsoleManager.connect`

`ssh_manager.py` lines 83–139 and 280–319.  Both loop
`for attempt in range(1, retries + 1)`.  The jump-host manager
distinguishes the paramiko exception classes; the console manager has a
single `except Exception` handler.  An attempt list of length `retries`
supplies the outcome of each `client.connect` call. -/

/-- What one underlying `connect` attempt does. -/
inductive AttemptOutcome where
  | success
  | authFail      -- paramiko AuthenticationException
  | noValidConn   -- paramiko NoValidConnectionsError
  | sshExc        -- paramiko SSHException (not one of the above)
  | otherExc      -- any other exception
deriving Repr, DecidableEq

/-- Observable result of a `connect()` call. -/
structure ConnectResult where
  connected : Bool
  attemptsMade : Nat
  retryDelays : Nat     -- number of `time.sleep(retry_delay)` calls
  raisedConnectionError : Bool
deriving Repr, DecidableEq

/-- Loop body of `SSHManager.connect`, one list entry per remaining attempt
(`rest = []` exactly when `attempt == retries`).  Authentication failures,
`SSHException`s and unexpected exceptions raise `ConnectionError` at once;
only `NoValidConnectionsError` sleeps and retries while attempts remain. -/
def sshConnectGo : List AttemptOutcome → Nat → Nat → ConnectResult
  | [], made, slept => ⟨false, made, slept, false⟩
  | o :: rest, made, slept =>
    match o with
    | .success => ⟨true, made + 1, slept, false⟩
    | .authFail => ⟨false, made + 1, slept, true⟩
    | .sshExc => ⟨false, made + 1, slept, true⟩
    | .otherExc => ⟨false, made + 1, slept, true⟩
    | .noValidConn =>
      if rest = [] then ⟨false, made + 1, slept, true⟩
      else sshConnectGo rest (made + 1) (slept + 1)

/-- Model of `SSHManager.connect(retries)` driven by the per-attempt outcomes
(the list has one entry per configured attempt). -/
def sshManagerConnect (attempts : List AttemptOutcome) : ConnectResult :=
  sshConnectGo attempts 0 0

/-- Loop body of `ConsoleManager.connect`: every exception class alike is
caught by `except Exception`, slept on, and retried while attempts remain. -/
def consoleConnectGo : List AttemptOutcome → Nat → Nat → ConnectResult
  | [], made, slept => ⟨false, made, slept, false⟩
  | o :: rest, made, slept =>
    match o with
    | .success => ⟨true, made + 1, slept, false⟩
    | _ =>
      if rest = [] then ⟨false, made + 1, slept, true⟩
      else consoleConnectGo rest (made + 1) (slept + 1)

/-- Model of `ConsoleManager.connect(retries)` driven by the per-attempt
outcomes. -/
def consoleManagerConnect (attempts : List AttemptOutcome) : ConnectResult :=
  consoleConnectGo attempts 0 0

/-! ## The provisioning workflow —
`ProvisioningOrchestrator.provision_device` and its steps

`orchestrator.py` lines 33–44 (states), 153–211 (driver), 213–536 (steps),
654–674 (cleanup). -/

/-- The `ProvisioningState` enum.  Each member's `.value` string matters, because
`_cleanup` compares those strings with Python's `>=`. -/
inductive PState where
  | initialized
  | netbox_connected
  | config_retrieved
  | ftp_file_created
  | console_connected
  | device_verified
  | config_copied_to_flash
  | config_applied
  | completed
  | failed
deriving Repr, DecidableEq

/-- The `.value` string of each `ProvisioningState` member. -/
def stateValue : PState → String
  | .initialized => "initialized"
  | .netbox_connected => "netbox_connected"
  | .config_retrieved => "config_retrieved"
  | .ftp_file_created => "ftp_file_created"
  | .console_connected => "console_connected"
  | .device_verified => "device_verified"
  | .config_copied_to_flash => "config_copied_to_flash"
  | .config_applied => "config_applied"
  | .completed => "completed"
  | .failed => "failed"

/-- The exception classes the workflow raises or wraps. -/
inductive ErrKind where
  | provisioningError
  | deviceVerificationError
  | configurationDeploymentError
deriving Repr, DecidableEq

/-- Orchestrator instance attributes mutated while a run progresses. -/
structure Ctx where
  state : PState
  deviceConfig : Option String
  expectedSerial : Option String
  actualSerial : Option String
  configFilename : Option String
  sshManagerSet : Bool       -- `self.ssh_manager` is not None
  consoleManagerSet : Bool   -- `self.console_manager` is not None
  startedVerify : Bool
  startedCopy : Bool
  startedApply : Bool
deriving Repr, DecidableEq

/-- Fresh orchestrator (`__init__`, lines 120–148). -/
def initCtx : Ctx :=
  { state := .initialized, deviceConfig := none, expectedSerial := none,
    actualSerial := none, configFilename := none, sshManagerSet := false,
    consoleManagerSet := false, startedVerify := false, startedCopy := false,
    startedApply := false }

/-- Everything the outside world feeds one provisioning run: what each
collaborator call returns or whether it raises.  Function-typed fields
answer the per-marker verification commands of step 6. -/
structure Env where
  deviceName : String
  netboxInitOk : Bool                  -- NetBoxClient(...) constructor
  configResult : Except Unit String    -- get_device_config
  serialResult : Except Unit String    -- get_device_serial
  sshConnectOk : Bool                  -- SSHManager.connect on the jump host
  createFileOk : Bool                  -- create_remote_file
  lsExitCode : Int                     -- `ls -lh` verification exit status
  consoleConnectOk : Bool              -- ConsoleManager.connect + connect_to_console
  enableOk : Bool                      -- _enter_enable_mode reaches `#`
  showVersionRaises : Bool             -- the two step-4 device commands
  showVersionOutput : String
  patterns : List (String → Option String)  -- parse_show_version's regexes
  copyCmdRaises : Bool
  copyOutput : String
  applyCmdRaises : Bool
  applyOutput : String
  verifyCmdRaises : String → Bool      -- per verification command
  verifyCmdOutput : String → String

/-- A step: mutates the context or raises, leaving the mutations made so
far visible to the handler (Python mutates `self` in place). -/
abbrev StepM := Except (ErrKind × Ctx) Ctx

/-- Step 1, `_step_retrieve_netbox_config` (lines 213–245): NetBox client
init, then config, then serial; every NetBox error class is wrapped into
`ProvisioningError`. -/
def stepRetrieveNetboxConfig (env : Env) (ctx : Ctx) : StepM :=
  if env.netboxInitOk then
    let ctx := { ctx with state := .netbox_connected }
    match env.configResult with
    | .error _ => .error (.provisioningError, ctx)
    | .ok cfg =>
      let ctx := { ctx with deviceConfig := some cfg }
      match env.serialResult with
      | .error _ => .error (.provisioningError, ctx)
      | .ok serial =>
        .ok { ctx with expectedSerial := some serial, state := .config_retrieved }
  else .error (.provisioningError, ctx)

/-- Step 2, `_step_create_ftp_file` (lines 247–286): the filename and the
`SSHManager` instance are assigned before `connect()` is attempted, so both
survive a failure; the state advances only when the `ls` check exits 0. -/
def stepCreateFtpFile (env : Env) (ctx : Ctx) : StepM :=
  let ctx := { ctx with configFilename := some (env.deviceName ++ ".txt"),
                        sshManagerSet := true }
  if ¬env.sshConnectOk then .error (.provisioningError, ctx)
  else if ¬env.createFileOk then .error (.provisioningError, ctx)
  else if env.lsExitCode = 0 then .ok { ctx with state := .ftp_file_created }
  else .error (.provisioningError, ctx)

/-- Step 3, `_step_connect_to_console` plus `_enter_enable_mode`
(lines 288–380): the state becomes `CONSOLE_CONNECTED` before enable mode
is attempted; any failure surfaces as `ProvisioningError`. -/
def stepConnectToConsole (env : Env) (ctx : Ctx) : StepM :=
  let ctx := { ctx with consoleManagerSet := true }
  if ¬env.consoleConnectOk then .error (.provisioningError, ctx)
  else
    let ctx := { ctx with state := .console_connected }
    if env.enableOk then .ok ctx else .error (.provisioningError, ctx)

/-- Step 4, `_step_verify_device` (lines 382–435): run `show version`,
extract the serial, fail with `DeviceVerificationError` when it is missing
or differs case-insensitively from the expected serial; any other
exception is wrapped into `ProvisioningError`. -/
def stepVerifyDevice (env : Env) (ctx : Ctx) : StepM :=
  let ctx := { ctx with startedVerify := true }
  if env.showVersionRaises then .error (.provisioningError, ctx)
  else
    match parse_show_version env.patterns env.showVersionOutput with
    | none => .error (.deviceVerificationError, ctx)
    | some actual =>
      let ctx := { ctx with actualSerial := some actual }
      match ctx.expectedSerial with
      | none => .error (.provisioningError, ctx)  -- AttributeError on None.lower()
      | some expected =>
        if pyLower expected ≠ pyLower actual then
          .error (.deviceVerificationError, ctx)
        else .ok { ctx with state := .device_verified }

/-- The success/error sniffing of `_step_copy_config_to_flash`
(lines 470–480): the success check runs first. -/
def copyFlashHasSuccess (output : String) : Bool :=
  pyIn "bytes copied" (pyLower output) || pyIn "ok" (pyLower output)

/-- The error-marker check of line 473. -/
def copyFlashHasError (output : String) : Bool :=
  pyIn "error" (pyLower output) || pyIn "fail" (pyLower output)

/-- Step 5, `_step_copy_config_to_flash` (lines 437–486). -/
def stepCopyConfigToFlash (env : Env) (ctx : Ctx) : StepM :=
  let ctx := { ctx with startedCopy := true }
  if env.copyCmdRaises then .error (.provisioningError, ctx)
  else if copyFlashHasSuccess env.copyOutput then
    .ok { ctx with state := .config_copied_to_flash }
  else if copyFlashHasError env.copyOutput then
    .error (.configurationDeploymentError, ctx)
  else .ok ctx  -- ambiguous: logged, no state change, no failure

/-- Line 507's apply-output error test:
`'error' in output.lower() and 'no error' not in output.lower()`. -/
def applyHasError (output : String) : Bool :=
  pyIn "error" (pyLower output) && ! pyIn "no error" (pyLower output)

/-- Lines 514–517's apply success indicators. -/
def applyHasSuccess (output : String) : Bool :=
  pyIn "bytes copied" (pyLower output) || pyIn "ok" (pyLower output)
    || pyIn "success" (pyLower output) || pyIn "completed" (pyLower output)

/-- The inspection command built for one marker (lines 567–577). -/
def verifyCmdFor (itemType itemValue : String) : String :=
  if itemType = "hostname" then "show running-config | include hostname"
  else if itemType = "interface" then
    "show running-config interface " ++ itemValue ++ " | include description"
  else if itemType = "vlan" then "show running-config | include vlan " ++ itemValue
  else "show running-config | include " ++ itemValue

/-- Model of `_verify_configuration_applied` (lines 538–607): markers whose check
command raised are only logged; a marker fails when its value does not
appear (case-insensitively) in the command output; any failed marker makes
the pass raise `ConfigurationDeploymentError`. -/
def verifyConfigurationApplied (env : Env) (ctx : Ctx) : StepM :=
  let markers := extract_verification_markers ctx.deviceConfig
  if markers = [] then .ok ctx
  else
    let failed := markers.filter fun m =>
      let cmd := verifyCmdFor m.1 m.2
      ¬env.verifyCmdRaises cmd
        ∧ ¬pyIn (pyLower m.2) (pyLower (env.verifyCmdOutput cmd))
    if failed = [] then .ok ctx else .error (.configurationDeploymentError, ctx)

/-- Step 6, `_step_apply_configuration` (lines 488–536): error markers
first, then success indicators (advancing the state), then the settle
delay and the verification pass. -/
def stepApplyConfiguration (env : Env) (ctx : Ctx) : StepM :=
  let ctx := { ctx with startedApply := true }
  if env.applyCmdRaises then .error (.provisioningError, ctx)
  else if applyHasError env.applyOutput then
    .error (.configurationDeploymentError, ctx)
  else
    let ctx :=
      if applyHasSuccess env.applyOutput then { ctx with state := .config_applied }
      else ctx
    verifyConfigurationApplied env ctx

/-- The try-body of `provision_device` (lines 170–195): the six steps in
sequence. -/
def runSteps (env : Env) : StepM :=
  stepRetrieveNetboxConfig env initCtx >>= stepCreateFtpFile env
    >>= stepConnectToConsole env >>= stepVerifyDevice env
    >>= stepCopyConfigToFlash env >>= stepApplyConfiguration env

/-- Model of `_cleanup` (lines 654–674): the deletion is attempted only when
`self.state.value >= ProvisioningState.FTP_FILE_CREATED.value` — a Python
string comparison evaluated after `self.state` was already set to
`FAILED` — and the SSH manager and filename exist.  Returns the number of
`rm -f` attempts. -/
def cleanupDeletions (ctx : Ctx) : Nat :=
  if pyStrGe (stateValue ctx.state) (stateValue .ftp_file_created)
      ∧ ctx.sshManagerSet ∧ ctx.configFilename.isSome
  then 1 else 0

deriving instance DecidableEq for Except

/-- What one whole `provision_device` call did. -/
structure RunResult where
  result : Except ErrKind Bool   -- return value or the wrapped fatal error
  finalState : PState
  stateAtFailure : Option PState -- the state when the failing step raised
  failedStepErr : Option ErrKind -- class of the exception the step raised
  deletionAttempts : Nat
  ctx : Ctx
deriving Repr, DecidableEq

/-- Model of `provision_device` (lines 153–211): on success the state becomes
`COMPLETED` and `True` is returned; on any exception the state becomes
`FAILED`, `_cleanup` runs, and the cause is wrapped in a fresh
`ProvisioningError`. -/
def provision_device (env : Env) : RunResult :=
  match runSteps env with
  | .ok ctx =>
    let ctx := { ctx with state := .completed }
    { result := .ok true, finalState := .completed, stateAtFailure := none,
      failedStepErr := none, deletionAttempts := 0, ctx := ctx }
  | .error (k, ctx) =>
    let preFailState := ctx.state
    let ctx := { ctx with state := .failed }
    { result := .error .provisioningError, finalState := .failed,
      stateAtFailure := some preFailState, failedStepErr := some k,
      deletionAttempts := cleanupDeletions ctx, ctx := ctx }

/-! ## Concrete fixtures used by individual witnesses and counterexamples -/

/-- A run against a healthy environment up to verification, where the
device reports serial `FOC9999ZZZZ` while inventory expects
`FOC2345ABCD` (the spec's own example). -/
def envMismatch : Env :=
  { deviceName := "router-01", netboxInitOk := true,
    configResult := .ok "hostname edge-1\n", serialResult := .ok "FOC2345ABCD",
    sshConnectOk := true, createFileOk := true, lsExitCode := 0,
    consoleConnectOk := true, enableOk := true,
    showVersionRaises := false,
    showVersionOutput := "System Serial Number : FOC9999ZZZZ",
    patterns := [(fun out =>
      if pyIn "System Serial Number : FOC9999ZZZZ" out
      then some "FOC9999ZZZZ" else none)],
    copyCmdRaises := false, copyOutput := "",
    applyCmdRaises := false, applyOutput := "",
    verifyCmdRaises := fun _ => false, verifyCmdOutput := fun _ => "" }

/-- A run that stages the FTP file successfully and then fails to reach the
console: the staged-file milestone was reached before the failure. -/
def envConsoleDown : Env :=
  { envMismatch with consoleConnectOk := false }

/-- Default knobs of `execute_device_command`: `wait_time=5`, `timeout=120`,
`handle_pagination=True`, `auto_confirm=False`, no expect string. -/
def defaultRunParams : RunParams :=
  { waitTime := 5, timeout := 120, handlePagination := true,
    autoConfirm := false, expect := none }

/-- A configuration whose first interface block has no description and is
followed by three blocks that each have one. -/
def cfgLateDescriptions : String :=
  "interface Gi0\n shutdown\ninterface Gi1\n description a\ninterface Gi2\n description b\ninterface Gi3\n description c\n"

/-- A configuration whose first three interface blocks all carry
descriptions. -/
def cfgThreeDescriptions : String :=
  "interface Gi1\n description a\ninterface Gi2\n description b\ninterface Gi3\n description c\ninterface Gi4\n shutdown\n"

/-- Copy-to-flash output carrying an explicit error marker — and, inside
the word `broken`, the substring `ok` that the success check also sniffs. -/
def envCopyErrOk : Env :=
  { envMismatch with
    copyCmdRaises := false,
    copyOutput := "%Error: broken pipe" }

/-- The orchestrator context as it stands when step 5 begins (device just
verified). -/
def ctxAfterVerify : Ctx :=
  { state := .device_verified, deviceConfig := some "hostname edge-1\n",
    expectedSerial := some "FOC2345ABCD", actualSerial := some "FOC2345ABCD",
    configFilename := some "router-01.txt", sshManagerSet := true,
    consoleManagerSet := true, startedVerify := true, startedCopy := false,
    startedApply := false }

/-- A serial-extractor pattern that always captures the placeholder
`NONE` (what a weak regex would capture from `Serial Number: NONE`). -/
def placeholderPattern : String → Option String := fun _ => some " NONE "

/-- A second-choice pattern capturing a genuine serial. -/
def genuinePattern : String → Option String := fun _ => some "FCW1234A5BC"

/-! # Theorems -/

/-! ## Shared helper lemmas -/

/-- The cleanup routine never passes its guard: by the time it runs the state is
`FAILED`, and Python compares the enum's *string* values, under which
`"failed" < "ftp_file_created"`. -/
theorem cleanupDeletions_failed (ctx : Ctx) (h : ctx.state = .failed) :
    cleanupDeletions ctx = 0 := by
  have hlt : pyStrGe (stateValue PState.failed) (stateValue PState.ftp_file_created)
      = false := by decide
  unfold cleanupDeletions
  rw [h, hlt]
  simp

/-- Induction principle for running the read loop on a constant stream. -/
theorem foldl_replicate_inv {α β : Type} (f : α → β → α) (c : β)
    (P : Nat → α → Prop) (hstep : ∀ k st, P k st → P (k + 1) (f st c)) :
    ∀ n k st, P k st → P (k + n) (List.foldl f st (List.replicate n c)) := by
  intro n
  induction n with
  | zero => intro k st h; simpa using h
  | succ m ih =>
    intro k st h
    rw [List.replicate_succ, List.foldl_cons]
    have := ih (k + 1) (f st c) (hstep k st h)
    have harith : k + 1 + m = k + (m + 1) := by omega
    rwa [harith] at this

/-- A broken loop state is final. -/
theorem runStep_broke (p : RunParams) (st : LoopState) (c : String)
    (h : st.broke = true) : runStep p st c = st := by
  unfold runStep
  rw [h]
  simp

/-! ## C2 — cleanup after a post-staging failure (code bug)

The claim says a failure after `FTP_FILE_CREATED` triggers exactly one
deletion attempt.  The code never attempts one: `_cleanup` compares
`self.state.value >= ProvisioningState.FTP_FILE_CREATED.value` as Python
strings *after* `provision_device` already set `self.state = FAILED`, and
`"failed" < "ftp_file_created"` lexicographically, so the guard is dead. -/

/-- C2: in a run that failed right after the staged-file milestone (console
connection refused), the staged file existed, the SSH session existed, and
yet zero deletion attempts happen — and in fact every run performs zero
deletion attempts. -/
theorem cleanup_never_deletes :
    ((provision_device envConsoleDown).stateAtFailure
        = some PState.ftp_file_created
      ∧ (provision_device envConsoleDown).ctx.sshManagerSet = true
      ∧ (provision_device envConsoleDown).ctx.configFilename.isSome = true
      ∧ (provision_device envConsoleDown).deletionAttempts = 0)
    ∧ ∀ env : Env, (provision_device env).deletionAttempts = 0 := by
  constructor
  · refine ⟨by decide, by decide, by decide, by decide⟩
  · intro env
    unfold provision_device
    match runSteps env with
    | .ok ctx => rfl
    | .error (k, ctx) =>
      simp only
      exact cleanupDeletions_failed _ rfl

/-! ## C10 — `provision_device` return/raise dichotomy -/

/-- C10: every provisioning run either returns `True` with final state
`COMPLETED` or raises a wrapped `ProvisioningError` with final state
`FAILED`; returning `False` is impossible, so the caller's
`else`-branch on a falsy return (zero_touch_provision.py lines 364–369)
can never run. -/
theorem provision_device_dichotomy (env : Env) :
    (((provision_device env).result = .ok true
        ∧ (provision_device env).finalState = .completed)
      ∨ ((provision_device env).result = .error .provisioningError
        ∧ (provision_device env).finalState = .failed))
    ∧ (provision_device env).result ≠ .ok false := by
  unfold provision_device
  match runSteps env with
  | .ok ctx => exact ⟨.inl ⟨rfl, rfl⟩, by simp⟩
  | .error (k, ctx) => exact ⟨.inr ⟨rfl, rfl⟩, by simp⟩

/-! ## C5 — authentication failures and retry

True for the jump-host `SSHManager` (its `except AuthenticationException`
arm raises at once), false for the terminal-server `ConsoleManager`, whose
single `except Exception` arm sleeps and retries authentication failures
like any transient fault. -/

/-- Accumulator lemma for `SSHManager.connect`: transient failures before an
authentication failure each sleep once and retry; the authentication
failure then raises immediately. -/
theorem sshConnectGo_auth (pre rest : List AttemptOutcome)
    (hpre : ∀ o ∈ pre, o = AttemptOutcome.noValidConn) :
    ∀ made slept, sshConnectGo (pre ++ .authFail :: rest) made slept
      = ⟨false, made + pre.length + 1, slept + pre.length, true⟩ := by
  induction pre with
  | nil => intro made slept; simp [sshConnectGo]
  | cons o pre ih =>
    intro made slept
    have ho : o = AttemptOutcome.noValidConn := hpre o (by simp)
    have hpre2 : ∀ o ∈ pre, o = AttemptOutcome.noValidConn := fun o h =>
      hpre o (by simp [h])
    subst ho
    rw [List.cons_append]
    show sshConnectGo (.noValidConn :: (pre ++ .authFail :: rest)) made slept = _
    unfold sshConnectGo
    simp only []
    have hne : pre ++ AttemptOutcome.authFail :: rest ≠ [] := by simp
    rw [if_neg hne]
    rw [ih hpre2 (made + 1) (slept + 1)]
    simp only [ConnectResult.mk.injEq, List.length_cons]
    refine ⟨trivial, by omega, by omega, trivial⟩

/-- Accumulator lemma for `ConsoleManager.connect` on an all-authentication-
failure attempt list: every attempt is made and every gap sleeps. -/
theorem consoleConnectGo_auth (n : Nat) :
    ∀ made slept, consoleConnectGo (List.replicate (n + 1) .authFail) made slept
      = ⟨false, made + n + 1, slept + n, true⟩ := by
  induction n with
  | zero => intro made slept; simp [consoleConnectGo, List.replicate]
  | succ m ih =>
    intro made slept
    rw [List.replicate_succ]
    show consoleConnectGo (.authFail :: List.replicate (m + 1) .authFail) made slept = _
    unfold consoleConnectGo
    simp only []
    have hne : List.replicate (m + 1) AttemptOutcome.authFail ≠ [] := by simp
    rw [if_neg hne]
    rw [ih (made + 1) (slept + 1)]
    congr 1 <;> omega

/-- C5 counterexample: the terminal-server console manager, given three
attempts that all fail authentication, makes all three attempts and sleeps
twice — the claim's "no further attempts and no retry delay" is false for
that manager. -/
theorem console_auth_retried :
    consoleManagerConnect [.authFail, .authFail, .authFail]
      = { connected := false, attemptsMade := 3, retryDelays := 2,
          raisedConnectionError := true }
    ∧ ¬(consoleManagerConnect [.authFail, .authFail, .authFail]).attemptsMade = 1 := by
  decide

/-- C5 (amended): the jump-host SSH manager raises a fatal
`ConnectionError` the moment an attempt fails authentication — no retry,
no extra delay, however many attempts remain — while the terminal-server
console manager retries authentication failures like any other failure,
sleeping between attempts and raising only after the last one. -/
theorem auth_failure_retry_policy (pre rest : List AttemptOutcome) (n : Nat)
    (hpre : ∀ o ∈ pre, o = AttemptOutcome.noValidConn) (hn : 1 ≤ n) :
    sshManagerConnect (pre ++ .authFail :: rest)
      = { connected := false, attemptsMade := pre.length + 1,
          retryDelays := pre.length, raisedConnectionError := true }
    ∧ consoleManagerConnect (List.replicate n .authFail)
      = { connected := false, attemptsMade := n, retryDelays := n - 1,
          raisedConnectionError := true } := by
  constructor
  · unfold sshManagerConnect
    rw [sshConnectGo_auth pre rest hpre 0 0]
    congr 1 <;> omega
  · unfold consoleManagerConnect
    obtain ⟨m, rfl⟩ : ∃ m, n = m + 1 := ⟨n - 1, by omega⟩
    rw [consoleConnectGo_auth m 0 0]
    congr 1 <;> omega

/-- C5 witness: the amended theorem applied to one transient failure
followed by an authentication failure with one attempt remaining, and to
three authentication failures on the console path. -/
theorem auth_failure_retry_policy_w :
    sshManagerConnect [.noValidConn, .authFail, .noValidConn]
      = { connected := false, attemptsMade := 2, retryDelays := 1,
          raisedConnectionError := true }
    ∧ consoleManagerConnect (List.replicate 3 .authFail)
      = { connected := false, attemptsMade := 3, retryDelays := 2,
          raisedConnectionError := true } := by
  have h := auth_failure_retry_policy [.noValidConn] [.noValidConn] 3
    (by intro o ho; simpa using ho) (by decide)
  exact ⟨h.1, h.2⟩

/-! ## C7 — copy-to-flash output classification

The claim's "raises whenever the output contains an error/failure marker"
is false: the `if/elif` chain of lines 470–477 tests the success markers
first, so an output containing both kinds advances the state instead of
raising. -/

/-- C7 counterexample: the output `%Error: broken pipe` carries the error
marker `error`, yet the step succeeds and advances the state to the copied
milestone, because `ok` occurs inside `broken` and the success branch runs
first. -/
theorem copy_error_output_advances :
    copyFlashHasError "%Error: broken pipe" = true
    ∧ stepCopyConfigToFlash envCopyErrOk ctxAfterVerify
      = .ok { ctxAfterVerify with
              startedCopy := true, state := .config_copied_to_flash } := by
  constructor
  · decide
  · decide

/-- C7 (amended): the copy-to-flash step checks the success markers
(`bytes copied` / `ok`, case-insensitive) first and advances the state
when one is present; it raises a fatal `ConfigurationDeploymentError` when
an error/failure marker is present *and no success marker is*; and when
neither kind of marker appears the step neither fails nor advances the
state (the ambiguous result is only logged). -/
theorem copy_to_flash_classification (env : Env) (ctx : Ctx)
    (hraise : env.copyCmdRaises = false) :
    (copyFlashHasSuccess env.copyOutput = true →
      stepCopyConfigToFlash env ctx
        = .ok { ctx with startedCopy := true, state := .config_copied_to_flash })
    ∧ (copyFlashHasSuccess env.copyOutput = false →
        copyFlashHasError env.copyOutput = true →
        stepCopyConfigToFlash env ctx
          = .error (.configurationDeploymentError, { ctx with startedCopy := true }))
    ∧ (copyFlashHasSuccess env.copyOutput = false →
        copyFlashHasError env.copyOutput = false →
        stepCopyConfigToFlash env ctx = .ok { ctx with startedCopy := true }) := by
  refine ⟨fun hs => ?_, fun hs he => ?_, fun hs he => ?_⟩ <;>
    simp [stepCopyConfigToFlash, hraise, hs] <;> simp [he]

/-- C7 witness: the amended theorem applied to a device output
`255 bytes copied in 0.1 secs` (success), to `%Error opening file`
(error), and to an empty ambiguous output. -/
theorem copy_to_flash_classification_w :
    stepCopyConfigToFlash
        { envCopyErrOk with copyOutput := "255 bytes copied in 0.1 secs" }
        ctxAfterVerify
      = .ok { ctxAfterVerify with
              startedCopy := true, state := .config_copied_to_flash }
    ∧ stepCopyConfigToFlash { envCopyErrOk with copyOutput := "%Error opening file" }
        ctxAfterVerify
      = .error (.configurationDeploymentError,
          { ctxAfterVerify with startedCopy := true })
    ∧ stepCopyConfigToFlash { envCopyErrOk with copyOutput := "" } ctxAfterVerify
      = .ok { ctxAfterVerify with startedCopy := true } := by
  refine ⟨?_, ?_, ?_⟩
  · exact (copy_to_flash_classification
      { envCopyErrOk with copyOutput := "255 bytes copied in 0.1 secs" }
      ctxAfterVerify rfl).1 (by decide)
  · exact (copy_to_flash_classification
      { envCopyErrOk with copyOutput := "%Error opening file" }
      ctxAfterVerify rfl).2.1 (by decide) (by decide)
  · exact (copy_to_flash_classification { envCopyErrOk with copyOutput := "" }
      ctxAfterVerify rfl).2.2 (by decide) (by decide)

/-! ## C8 — the serial extractor never returns placeholders -/

/-- Any serial the pattern loop returns survived the placeholder filter. -/
theorem serialPatternLoop_accepted (ps : List (String → Option String))
    (s : String) : ∀ x, serialPatternLoop ps s = some x →
      isPlaceholderSerial x = false := by
  induction ps with
  | nil => intro x hx; simp [serialPatternLoop] at hx
  | cons p ps ih =>
    intro x hx
    unfold serialPatternLoop at hx
    split at hx
    · next tok htok =>
      split at hx
      · exact ih x hx
      · next hrej =>
        cases hx
        simpa using hrej
    · exact ih x hx

/-- If every pattern's capture is rejected, the loop returns `none`. -/
theorem serialPatternLoop_exhausted (ps : List (String → Option String))
    (s : String)
    (hall : ∀ p ∈ ps, ∀ t, p s = some t →
      isPlaceholderSerial (pyStrip t) = true) :
    serialPatternLoop ps s = none := by
  induction ps with
  | nil => rfl
  | cons p ps ih =>
    unfold serialPatternLoop
    have ihall : ∀ p ∈ ps, ∀ t, p s = some t →
        isPlaceholderSerial (pyStrip t) = true := fun q hq => hall q (by simp [hq])
    split
    · next tok htok =>
      rw [if_pos (hall p (by simp) tok htok)]
      exact ih ihall
    · exact ih ihall

/-- C8: for every output text and every pattern list, (i) a returned
serial is never the empty string and never — case-insensitively, after
stripping — `none`, `n/a` or `unknown`; (ii) a pattern whose capture
strips to a placeholder is skipped and the search continues with the
remaining patterns; (iii) if every pattern's capture is rejected the
extractor returns `none`, never an empty string. -/
theorem serial_extractor_placeholder_filter
    (patterns : List (String → Option String)) (output : String) :
    (∀ x, parse_show_version patterns output = some x →
      x ≠ "" ∧ pyLower x ≠ "none" ∧ pyLower x ≠ "n/a" ∧ pyLower x ≠ "unknown")
    ∧ (∀ (p : String → Option String) (ps : List (String → Option String)),
        ∀ t, p (cleanVersionOutput output) = some t →
          isPlaceholderSerial (pyStrip t) = true →
          parse_show_version (p :: ps) output = parse_show_version ps output)
    ∧ ((∀ p ∈ patterns, ∀ t, p (cleanVersionOutput output) = some t →
          isPlaceholderSerial (pyStrip t) = true) →
        parse_show_version patterns output = none) := by
  refine ⟨?_, ?_, ?_⟩
  · intro x hx
    have h := serialPatternLoop_accepted patterns (cleanVersionOutput output) x hx
    unfold isPlaceholderSerial at h
    simp only [Bool.or_eq_false_iff, decide_eq_false_iff_not] at h
    exact ⟨h.1.1.1, h.1.1.2, h.1.2, h.2⟩
  · intro p ps t ht hrej
    unfold parse_show_version
    conv_lhs => unfold serialPatternLoop
    rw [ht]
    simp [hrej]
  · intro hall
    exact serialPatternLoop_exhausted patterns (cleanVersionOutput output) hall

/-- C8 witness: a weak pattern capturing the placeholder ` NONE ` is
skipped in favour of the next pattern, which yields `FCW1234A5BC`; with
only the weak pattern the result is `none`. -/
theorem serial_extractor_placeholder_filter_w :
    parse_show_version [placeholderPattern, genuinePattern] "Serial Number: NONE"
      = parse_show_version [genuinePattern] "Serial Number: NONE"
    ∧ parse_show_version [genuinePattern] "Serial Number: NONE" = some "FCW1234A5BC"
    ∧ parse_show_version [placeholderPattern] "Serial Number: NONE" = none := by
  refine ⟨?_, by decide, ?_⟩
  · exact (serial_extractor_placeholder_filter [placeholderPattern]
      "Serial Number: NONE").2.1 placeholderPattern [genuinePattern]
      " NONE " rfl (by decide)
  · exact (serial_extractor_placeholder_filter [placeholderPattern]
      "Serial Number: NONE").2.2 (by
        intro p hp t ht
        simp only [List.mem_singleton] at hp
        subst hp
        cases ht
        decide)

/-! ## C9 — at most one confirmation newline per `run` call -/

/-- The final checks of an iteration never touch the counters or flags. -/
theorem finishChecks_fields (p : RunParams) (st : LoopState) (c : String) :
    (finishChecks p st c).newlinesSent = st.newlinesSent
    ∧ (finishChecks p st c).confirmationSent = st.confirmationSent
    ∧ (finishChecks p st c).spacesSent = st.spacesSent
    ∧ (finishChecks p st c).paginationCount = st.paginationCount
    ∧ (finishChecks p st c).clock = st.clock
    ∧ (finishChecks p st c).output = st.output := by
  unfold finishChecks
  split_ifs <;> simp

/-- The confirmation interceptor keeps `newlinesSent` locked to the
`confirmation_sent` flag: `0` before it is set, `1` after. -/
theorem confirmBranch_newlines_inv (p : RunParams) (st : LoopState) (c : String)
    (h : st.newlinesSent = if st.confirmationSent then 1 else 0) :
    (confirmBranch p st c).newlinesSent
      = if (confirmBranch p st c).confirmationSent then 1 else 0 := by
  unfold confirmBranch
  by_cases hc : p.autoConfirm = true ∧ st.confirmationSent = false
      ∧ confirmPromptMatch c = true
  · rw [if_pos hc]
    have h0 : st.newlinesSent = 0 := by rw [h, hc.2.1]; simp
    simp [h0]
  · rw [if_neg hc]
    exact h

/-- The loop preserves the newline/flag invariant on every iteration. -/
theorem runStep_newlines_inv (p : RunParams) (st : LoopState) (c : String)
    (h : st.newlinesSent = if st.confirmationSent then 1 else 0) :
    (runStep p st c).newlinesSent
      = if (runStep p st c).confirmationSent then 1 else 0 := by
  by_cases h1 : st.broke = true
  · rw [runStep_broke p st c h1]; exact h
  · have hr : runStep p st c =
        if p.handlePagination = true ∧ st.paginationCount < 50
            ∧ hasPagerMarker c = true
        then pagerBranch (tickStep st c)
        else finishChecks p (confirmBranch p (tickStep st c) c) c := by
      unfold runStep
      rw [if_neg (by simpa using h1)]
    by_cases h2 : p.handlePagination = true ∧ st.paginationCount < 50
        ∧ hasPagerMarker c = true
    · rw [hr, if_pos h2]
      simpa [pagerBranch, tickStep] using h
    · rw [hr, if_neg h2]
      have hfin := finishChecks_fields p (confirmBranch p (tickStep st c) c) c
      rw [hfin.1, hfin.2.1]
      exact confirmBranch_newlines_inv p (tickStep st c) c
        (by simpa [tickStep] using h)

/-- C9: however the channel chunks arrive, a call to
`execute_device_command` with `auto_confirm` enabled sends at most one
confirmation newline, even when confirmation-prompt patterns keep
matching later chunks. -/
theorem confirmation_sent_at_most_once (w t : Nat) (hp : Bool)
    (e : Option String) (cs : List String) :
    (runChunks { waitTime := w, timeout := t, handlePagination := hp,
                 autoConfirm := true, expect := e } cs).newlinesSent ≤ 1 := by
  set p : RunParams :=
    { waitTime := w, timeout := t, handlePagination := hp,
      autoConfirm := true, expect := e }
  have key : ∀ (l : List String) (st : LoopState),
      st.newlinesSent = (if st.confirmationSent then 1 else 0) →
      (l.foldl (runStep p) st).newlinesSent
        = if (l.foldl (runStep p) st).confirmationSent then 1 else 0 := by
    intro l
    induction l with
    | nil => intro st h; simpa using h
    | cons c rest ih =>
      intro st h
      rw [List.foldl_cons]
      exact ih _ (runStep_newlines_inv p st c h)
  have h := key cs initLoop (by rfl)
  unfold runChunks
  rw [h]
  split <;> omega

/-! ## C3 / C4 — the read loop's timing behaviour

Shared facts about single iterations on chunks that trigger neither the
pagination nor the confirmation interceptor. -/

/-- An iteration that takes neither interceptor reduces to the three final
checks on the ticked state. -/
theorem runStep_plain (p : RunParams) (st : LoopState) (c : String)
    (hb : st.broke = false)
    (hcond : ¬(p.handlePagination = true ∧ st.paginationCount < 50
      ∧ hasPagerMarker c = true))
    (hconf : confirmPromptMatch c = false)
    (hexp : p.expect = none) :
    runStep p st c =
      if p.timeout < st.clock + 1 - st.lastReset then
        { tickStep st c with broke := true }
      else if p.waitTime < st.clock + 1 - st.lastReset then
        if c ≠ "" then { tickStep st c with lastReset := st.clock + 1 }
        else { tickStep st c with broke := true }
      else tickStep st c := by
  unfold runStep
  rw [if_neg (by simp [hb]), if_neg hcond]
  unfold confirmBranch
  rw [if_neg (by simp [hconf])]
  unfold finishChecks
  rw [hexp]
  simp only [tickStep]
  split_ifs <;> simp_all

set_option maxRecDepth 4000 in
/-- C3 counterexample: with the default knobs (`wait_time=5`,
`timeout=120`), a channel that keeps producing a byte every second keeps
the call running past 130 seconds — it has not terminated by the hard
timeout `T = 120` measured from the command being sent, because each
non-empty chunk resets `start_time`. -/
theorem hard_timeout_defeated_by_activity :
    (runChunks defaultRunParams (List.replicate 130 "x")).broke = false
    ∧ defaultRunParams.timeout = 120 ∧ (120 : Nat) < 130 := by
  refine ⟨by decide, rfl, by decide⟩

/-- C3 (amended): the `timeout` bound of `execute_device_command` is
measured from the most recent idle-clock reset, not from the command being
sent.  When the channel goes silent (and no pager/confirmation event
fires) the call does terminate — within `wait_time + 1` seconds of the
start when fed only empty reads — but a channel that keeps delivering
non-empty chunks resets the clock on every quiescence check, so the call
runs arbitrarily long past `timeout` while bytes keep arriving. -/
theorem run_timeout_is_idle_relative (p : RunParams)
    (hexp : p.expect = none) (hwt : p.waitTime < p.timeout) :
    (∀ n, p.waitTime + 1 ≤ n →
      (runChunks p (List.replicate n "")).broke = true)
    ∧ (∀ n, (runChunks p (List.replicate n "x")).broke = false) := by
  have hpag_e : hasPagerMarker "" = false := by decide
  have hconf_e : confirmPromptMatch "" = false := by decide
  have hpag_x : hasPagerMarker "x" = false := by decide
  have hconf_x : confirmPromptMatch "x" = false := by decide
  constructor
  · -- quiescence: empty reads break the loop at `wait_time + 1`
    intro n hn
    have hstep : ∀ k st,
        ((k ≤ p.waitTime → st.broke = false ∧ st.clock = k ∧ st.lastReset = 0)
          ∧ (p.waitTime < k → st.broke = true)) →
        ((k + 1 ≤ p.waitTime → (runStep p st "").broke = false
            ∧ (runStep p st "").clock = k + 1 ∧ (runStep p st "").lastReset = 0)
          ∧ (p.waitTime < k + 1 → (runStep p st "").broke = true)) := by
      intro k st ih
      by_cases hk : p.waitTime < k
      · have hbroke := ih.2 hk
        rw [runStep_broke p st "" hbroke]
        exact ⟨fun hle => absurd hle (by omega), fun _ => hbroke⟩
      · obtain ⟨hb, hc, hl⟩ := ih.1 (by omega)
        rw [runStep_plain p st "" hb (by simp [hpag_e]) hconf_e hexp]
        rw [hc, hl]
        by_cases hk1 : p.waitTime < k + 1
        · rw [if_neg (by omega), if_pos (by omega)]
          refine ⟨fun hle => absurd hle (by omega), fun _ => ?_⟩
          rw [if_neg (by simp)]
        · rw [if_neg (by omega), if_neg (by omega)]
          refine ⟨fun _ => ⟨by simp [tickStep, hb], by simp [tickStep, hc],
            by simp [tickStep, hl]⟩, fun hgt => absurd hgt (by omega)⟩
    have key := foldl_replicate_inv (runStep p) ""
      (fun k st =>
        (k ≤ p.waitTime → st.broke = false ∧ st.clock = k ∧ st.lastReset = 0)
          ∧ (p.waitTime < k → st.broke = true))
      hstep n 0 initLoop
      ⟨fun _ => ⟨rfl, rfl, rfl⟩, fun hgt => absurd hgt (by omega)⟩
    simp only [Nat.zero_add] at key
    exact key.2 (by omega)
  · -- activity: non-empty chunks keep resetting the idle clock
    intro n
    have hstep : ∀ k st,
        (st.broke = false ∧ st.clock = k ∧ st.lastReset ≤ k
          ∧ k - st.lastReset ≤ p.waitTime) →
        ((runStep p st "x").broke = false ∧ (runStep p st "x").clock = k + 1
          ∧ (runStep p st "x").lastReset ≤ k + 1
          ∧ k + 1 - (runStep p st "x").lastReset ≤ p.waitTime) := by
      intro k st ⟨hb, hc, hl, hd⟩
      rw [runStep_plain p st "x" hb (by simp [hpag_x]) hconf_x hexp]
      rw [hc]
      rw [if_neg (by omega)]
      by_cases hq : p.waitTime < k + 1 - st.lastReset
      · rw [if_pos hq, if_pos (by decide : ("x" : String) ≠ "")]
        exact ⟨by simp [tickStep, hb], by simp [tickStep, hc], by simp, by simp⟩
      · rw [if_neg hq]
        exact ⟨by simp [tickStep, hb], by simp [tickStep, hc],
          by simp [tickStep]; omega, by simp [tickStep]; omega⟩
    have key := foldl_replicate_inv (runStep p) "x"
      (fun k st => st.broke = false ∧ st.clock = k ∧ st.lastReset ≤ k
        ∧ k - st.lastReset ≤ p.waitTime)
      hstep n 0 initLoop ⟨rfl, rfl, by simp [initLoop], by simp [initLoop]⟩
    simp only [Nat.zero_add] at key
    exact key.1

/-- C3 witness: the amended theorem at the default knobs — six empty reads
terminate the call, while two hundred seconds of steady chatter leave it
running. -/
theorem run_timeout_is_idle_relative_w :
    (runChunks defaultRunParams (List.replicate 6 "")).broke = true
    ∧ (runChunks defaultRunParams (List.replicate 200 "x")).broke = false := by
  have h := run_timeout_is_idle_relative defaultRunParams rfl (by decide)
  exact ⟨h.1 6 (by decide), h.2 200⟩

set_option maxRecDepth 4000 in
/-- C4 counterexample: on a stream of pager-marker chunks with the default
knobs, the pagination counter reaches its ceiling of 50 at the fiftieth
chunk — yet ten chunks later the loop is still running: reaching the
ceiling stops the space-sending, not the call, because every further
non-empty chunk passes the activity check and resets the idle clock. -/
theorem pagination_ceiling_does_not_terminate :
    (runChunks defaultRunParams (List.replicate 60 "--More--")).paginationCount = 50
    ∧ (runChunks defaultRunParams (List.replicate 60 "--More--")).broke = false := by
  exact ⟨by decide, by decide⟩

/-- C4 (amended): while the counter is below the ceiling of 50, a chunk
containing a pager marker triggers exactly one space, one counter
increment and an idle-clock reset, with every other per-chunk check
skipped; the counter (and the number of spaces sent) never exceeds 50 on
an unbounded pager stream — but reaching the ceiling does not terminate
the call: the loop keeps consuming chunks, never breaking, since each
non-empty chunk resets the idle clock. -/
theorem pagination_bounded_but_loop_continues (p : RunParams)
    (hhp : p.handlePagination = true) (hexp : p.expect = none)
    (hwt : p.waitTime < p.timeout) :
    (∀ (st : LoopState) (c : String), st.broke = false →
      st.paginationCount < 50 → hasPagerMarker c = true →
      runStep p st c =
        { st with output := st.output ++ c, clock := st.clock + 1,
                  spacesSent := st.spacesSent + 1,
                  paginationCount := st.paginationCount + 1,
                  lastReset := st.clock + 1 })
    ∧ (∀ n, (runChunks p (List.replicate n "--More--")).paginationCount = min n 50
        ∧ (runChunks p (List.replicate n "--More--")).spacesSent = min n 50
        ∧ (runChunks p (List.replicate n "--More--")).broke = false) := by
  have hpm : hasPagerMarker "--More--" = true := by decide
  have hcm : confirmPromptMatch "--More--" = false := by decide
  have hstep_pager : ∀ (st : LoopState) (c : String), st.broke = false →
      st.paginationCount < 50 → hasPagerMarker c = true →
      runStep p st c =
        { st with output := st.output ++ c, clock := st.clock + 1,
                  spacesSent := st.spacesSent + 1,
                  paginationCount := st.paginationCount + 1,
                  lastReset := st.clock + 1 } := by
    intro st c hb hlt hpc
    unfold runStep
    rw [if_neg (by simp [hb]), if_pos ⟨hhp, hlt, hpc⟩]
    simp [pagerBranch, tickStep]
  refine ⟨hstep_pager, ?_⟩
  intro n
  have hstep : ∀ k st,
      (st.broke = false ∧ st.paginationCount = min k 50 ∧ st.spacesSent = min k 50
        ∧ st.clock = k ∧ st.lastReset ≤ k ∧ k - st.lastReset ≤ p.waitTime) →
      ((runStep p st "--More--").broke = false
        ∧ (runStep p st "--More--").paginationCount = min (k + 1) 50
        ∧ (runStep p st "--More--").spacesSent = min (k + 1) 50
        ∧ (runStep p st "--More--").clock = k + 1
        ∧ (runStep p st "--More--").lastReset ≤ k + 1
        ∧ k + 1 - (runStep p st "--More--").lastReset ≤ p.waitTime) := by
    intro k st ⟨hb, hpag, hsp, hc, hl, hd⟩
    by_cases hk : k < 50
    · rw [hstep_pager st "--More--" hb (by rw [hpag]; omega) hpm]
      refine ⟨by simp [hb], by simp [hpag]; omega, by simp [hsp]; omega,
        by simp [hc], by simp [hc], by simp [hc]⟩
    · have hpag50 : ¬st.paginationCount < 50 := by rw [hpag]; omega
      rw [runStep_plain p st "--More--" hb (by simp [hpag50]) hcm hexp]
      rw [hc]
      rw [if_neg (by omega)]
      by_cases hq : p.waitTime < k + 1 - st.lastReset
      · rw [if_pos hq, if_pos (by decide : ("--More--" : String) ≠ "")]
        exact ⟨by simp [tickStep, hb], by simp [tickStep, hpag]; omega,
          by simp [tickStep, hsp]; omega, by simp [tickStep, hc],
          by simp, by simp⟩
      · rw [if_neg hq]
        exact ⟨by simp [tickStep, hb], by simp [tickStep, hpag]; omega,
          by simp [tickStep, hsp]; omega, by simp [tickStep, hc],
          by simp [tickStep]; omega, by simp [tickStep]; omega⟩
  have key := foldl_replicate_inv (runStep p) "--More--"
    (fun k st => st.broke = false ∧ st.paginationCount = min k 50
      ∧ st.spacesSent = min k 50 ∧ st.clock = k ∧ st.lastReset ≤ k
      ∧ k - st.lastReset ≤ p.waitTime)
    hstep n 0 initLoop
    ⟨rfl, by simp [initLoop], by simp [initLoop], rfl, by simp [initLoop],
      by simp [initLoop]⟩
  simp only [Nat.zero_add] at key
  exact ⟨key.2.1, key.2.2.1, key.1⟩

set_option maxRecDepth 4000 in
/-- C4 witness: the amended theorem at the default knobs — the first pager
chunk from the initial state sends one space and resets the clock, and
sixty pager chunks yield exactly fifty spaces with the loop still
running. -/
theorem pagination_bounded_but_loop_continues_w :
    runStep defaultRunParams initLoop "--More--"
      = { initLoop with output := "--More--", clock := 1, spacesSent := 1,
                        paginationCount := 1, lastReset := 1 }
    ∧ (runChunks defaultRunParams (List.replicate 60 "--More--")).spacesSent = 50 := by
  have h := pagination_bounded_but_loop_continues defaultRunParams rfl rfl (by decide)
  constructor
  · have h1 := h.1 initLoop "--More--" rfl (by decide) (by decide)
    rw [h1]
    rfl
  · have h2 := (h.2 60).2.1
    rw [h2]
    omega

/-! ## C6 — interface markers and non-qualifying leading blocks

The code slices the *block* list first (`interface_matches[:3]`) and
filters by description afterwards, so a non-qualifying block among the
first three displaces a later qualifying one. -/

/-- Counting survivors of a guarded `filterMap`. -/
theorem length_filterMap_guard {α β : Type} (q : α → Bool) (f : α → β) :
    ∀ l : List α,
      (l.filterMap fun a => if q a then some (f a) else none).length = l.countP q := by
  intro l
  induction l with
  | nil => rfl
  | cons a t ih =>
    by_cases hq : q a = true <;>
      simp [List.filterMap_cons, List.countP_cons, hq, ih]

/-- Markers of a fixed non-`interface` kind contribute nothing to the
`interface` filter. -/
theorem filter_interface_map_const (k : String) (hk : ¬k = "interface") :
    ∀ l : List String,
      ((l.map fun v => (k, v)).filter fun m => m.1 = "interface") = [] := by
  intro l
  induction l with
  | nil => rfl
  | cons a t ih => simp [hk, ih]

/-- The `interface`-kind slice of the full marker list is exactly the
interface markers. -/
theorem extract_filter_interface (config : String) (h : ¬config = "") :
    ((extract_verification_markers (some config)).filter fun m => m.1 = "interface")
      = interfaceMarkersOf config := by
  have he : extract_verification_markers (some config)
      = hostnameMarkersOf config ++ interfaceMarkersOf config
        ++ vlanMarkersOf config ++ ipMarkersOf config := by
    show (if config = "" then []
      else hostnameMarkersOf config ++ interfaceMarkersOf config
        ++ vlanMarkersOf config ++ ipMarkersOf config) = _
    rw [if_neg h]
  rw [he]
  rw [List.filter_append, List.filter_append, List.filter_append]
  have h1 : (hostnameMarkersOf config).filter (fun m => m.1 = "interface") = [] := by
    unfold hostnameMarkersOf
    match hostnameTok (splitLines config) with
    | some tok => simp
    | none => simp
  have h2 : (vlanMarkersOf config).filter (fun m => m.1 = "interface") = [] := by
    unfold vlanMarkersOf
    exact filter_interface_map_const "vlan" (by decide) _
  have h3 : (ipMarkersOf config).filter (fun m => m.1 = "interface") = [] := by
    unfold ipMarkersOf
    exact filter_interface_map_const "ip_address" (by decide) _
  have h4 : (interfaceMarkersOf config).filter (fun m => m.1 = "interface")
      = interfaceMarkersOf config := by
    refine List.filter_eq_self.mpr ?_
    intro m hm
    unfold interfaceMarkersOf at hm
    obtain ⟨nb, hnb, hsome⟩ := List.mem_filterMap.mp hm
    by_cases hq : blockHasDescription nb.2.data = true
    · rw [if_pos hq] at hsome
      cases hsome
      simp
    · rw [if_neg hq] at hsome
      cases hsome
  rw [h1, h2, h3, h4]
  simp

/-- C6 counterexample: `cfgLateDescriptions` has four interface blocks,
three of which qualify with a non-empty description — yet only two
interface markers are produced, because the non-qualifying first block
occupies one of the three block slots.  The claim's "exactly three"
fails. -/
theorem interface_markers_miss_late_blocks :
    ((extract_verification_markers (some cfgLateDescriptions)).filter
        fun m => m.1 = "interface")
      = [("interface", "Gi1"), ("interface", "Gi2")]
    ∧ ((interfaceBlocks cfgLateDescriptions).filter
        fun nb => blockHasDescription nb.2.data).length = 3
    ∧ ¬((extract_verification_markers (some cfgLateDescriptions)).filter
        fun m => m.1 = "interface").length = 3 := by
  refine ⟨by decide, by decide, by decide⟩

/-- C6 (amended): the extractor walks only the *first three interface
blocks* (qualifying or not) and emits one marker per block among those
that contains a non-empty description.  Hence the interface-marker count
equals the number of qualifying blocks among the first three — at most
three — and it is three exactly when the first three blocks all qualify;
qualifying blocks beyond the third position are never considered. -/
theorem interface_markers_first_three_blocks (config : String)
    (h : ¬config = "") :
    ((extract_verification_markers (some config)).filter fun m => m.1 = "interface")
      = interfaceMarkersOf config
    ∧ (interfaceMarkersOf config).length
      = ((interfaceBlocks config).take 3).countP
          (fun nb => blockHasDescription nb.2.data)
    ∧ (interfaceMarkersOf config).length ≤ 3
    ∧ ((∀ nb ∈ (interfaceBlocks config).take 3, blockHasDescription nb.2.data = true) →
        (interfaceMarkersOf config).length = ((interfaceBlocks config).take 3).length) := by
  have hlen : (interfaceMarkersOf config).length
      = ((interfaceBlocks config).take 3).countP
          fun nb => blockHasDescription nb.2.data := by
    unfold interfaceMarkersOf
    exact length_filterMap_guard _ _ _
  refine ⟨extract_filter_interface config h, hlen, ?_, ?_⟩
  · rw [hlen]
    calc ((interfaceBlocks config).take 3).countP
          (fun nb => blockHasDescription nb.2.data)
        ≤ ((interfaceBlocks config).take 3).length := List.countP_le_length _
      _ ≤ 3 := List.length_take_le _ _
  · intro hall
    rw [hlen]
    exact List.countP_eq_length.mpr hall

/-- C6 witness: the amended theorem on a configuration whose first three
blocks all qualify — exactly three interface markers come out. -/
theorem interface_markers_first_three_blocks_w :
    ((extract_verification_markers (some cfgThreeDescriptions)).filter
        fun m => m.1 = "interface").length = 3 := by
  have h := interface_markers_first_three_blocks cfgThreeDescriptions (by decide)
  rw [h.1, h.2.2.2 (by decide)]
  decide

/-! ## C1 — serial mismatch halts before any configuration step -/

/-- C1: in any run that reaches the verification step, if the serial
extracted from the `show version` output differs case-insensitively from
the serial inventory expects, the verification step raises
`DeviceVerificationError`, neither the copy-to-flash step nor the
apply-configuration step ever starts, the run's final state is `FAILED`,
and the caller sees the wrapped `ProvisioningError`. -/
theorem serial_mismatch_aborts (env : Env) (exp act : String)
    (h1 : env.netboxInitOk = true)
    (h2 : ∃ cfg, env.configResult = Except.ok cfg)
    (h3 : env.serialResult = Except.ok exp)
    (h4 : env.sshConnectOk = true) (h5 : env.createFileOk = true)
    (h6 : env.lsExitCode = 0)
    (h7 : env.consoleConnectOk = true) (h8 : env.enableOk = true)
    (h9 : env.showVersionRaises = false)
    (h10 : parse_show_version env.patterns env.showVersionOutput = some act)
    (h11 : pyLower exp ≠ pyLower act) :
    (provision_device env).failedStepErr = some .deviceVerificationError
    ∧ (provision_device env).ctx.startedCopy = false
    ∧ (provision_device env).ctx.startedApply = false
    ∧ (provision_device env).finalState = .failed
    ∧ (provision_device env).result = .error .provisioningError := by
  obtain ⟨cfg, hcfg⟩ := h2
  have e1 : stepRetrieveNetboxConfig env initCtx
      = .ok { initCtx with
              state := .config_retrieved,
              deviceConfig := some cfg, expectedSerial := some exp } := by
    simp [stepRetrieveNetboxConfig, h1, hcfg, h3]
  have e2 : stepCreateFtpFile env
      { initCtx with
        state := .config_retrieved,
        deviceConfig := some cfg, expectedSerial := some exp }
      = .ok { initCtx with
              state := .ftp_file_created,
              deviceConfig := some cfg, expectedSerial := some exp,
              configFilename := some (env.deviceName ++ ".txt"),
              sshManagerSet := true } := by
    simp [stepCreateFtpFile, h4, h5, h6]
  have e3 : stepConnectToConsole env
      { initCtx with
        state := .ftp_file_created,
        deviceConfig := some cfg, expectedSerial := some exp,
        configFilename := some (env.deviceName ++ ".txt"), sshManagerSet := true }
      = .ok { initCtx with
              state := .console_connected,
              deviceConfig := some cfg, expectedSerial := some exp,
              configFilename := some (env.deviceName ++ ".txt"),
              sshManagerSet := true, consoleManagerSet := true } := by
    simp [stepConnectToConsole, h7, h8]
  have e4 : stepVerifyDevice env
      { initCtx with
        state := .console_connected,
        deviceConfig := some cfg, expectedSerial := some exp,
        configFilename := some (env.deviceName ++ ".txt"),
        sshManagerSet := true, consoleManagerSet := true }
      = .error (.deviceVerificationError,
          { initCtx with
            state := .console_connected,
            deviceConfig := some cfg, expectedSerial := some exp,
            actualSerial := some act,
            configFilename := some (env.deviceName ++ ".txt"),
            sshManagerSet := true, consoleManagerSet := true,
            startedVerify := true }) := by
    simp [stepVerifyDevice, h9, h10, h11]
  have hrun : runSteps env = .error (.deviceVerificationError,
      { initCtx with
        state := .console_connected,
        deviceConfig := some cfg, expectedSerial := some exp,
        actualSerial := some act,
        configFilename := some (env.deviceName ++ ".txt"),
        sshManagerSet := true, consoleManagerSet := true,
        startedVerify := true }) := by
    unfold runSteps
    rw [e1]
    show stepCreateFtpFile env _ >>= _ >>= _ >>= _ >>= _ = _
    rw [e2]
    show stepConnectToConsole env _ >>= _ >>= _ >>= _ = _
    rw [e3]
    show stepVerifyDevice env _ >>= _ >>= _ = _
    rw [e4]
    rfl
  simp [provision_device, hrun, initCtx]

/-- C1 witness: the spec's own scenario — expected `FOC2345ABCD`, observed
`FOC9999ZZZZ` — aborts with `DeviceVerificationError`, runs no transfer or
activation step, and ends `FAILED`. -/
theorem serial_mismatch_aborts_w :
    (provision_device envMismatch).failedStepErr = some .deviceVerificationError
    ∧ (provision_device envMismatch).ctx.startedCopy = false
    ∧ (provision_device envMismatch).ctx.startedApply = false
    ∧ (provision_device envMismatch).finalState = .failed
    ∧ (provision_device envMismatch).result = .error .provisioningError := by
  exact serial_mismatch_aborts envMismatch "FOC2345ABCD" "FOC9999ZZZZ"
    rfl ⟨"hostname edge-1\n", rfl⟩ rfl rfl rfl rfl rfl rfl rfl
    (by decide) (by decide)

end ZTP
